import Mathlib

/-!
Verification of the SRP authentication engine of HFS (src/src/auth.ts):
the two-step SRP-6a server handshake (srpStep1), the deduplicating
verification cache (srpCheck with its 60-second eviction timers), and the
session manager (setLoggedIn, getCurrentUsername, invalidSessions).

The embedding is a faithful translation of src/src/auth.ts.  External
collaborators that are not part of the shown source (the account store's
getAccount and normalizeUsername, the sha256 hex digest, the tssrp6a
cryptographic routines together with srpClientPart) are abstracted as
function parameters, with their contracts taken from the spec.  JavaScript
effects are made explicit: exceptions become Except, the module-level
mutable cache and its setTimeout-based eviction become an explicit state
record with a list of pending timers and a millisecond clock, and the
single-threaded event loop is reflected by running calls atomically up to
their suspension points (getOrSet stores the creator's promise
synchronously, before any other call can run).
-/

/-- Account record resolved by the external account store:
username together with the optional srp string of the form
salt and verifier separated by a bar, both decimal big integers.
An absent field is `none`; JavaScript treats the empty string as falsy,
which the code below checks explicitly. -/
structure Account where
  username : String
  srp : Option String
deriving Repr, DecidableEq

/-- The distinct failures thrown by src/src/auth.ts:
`notAcceptable` is the thrown HTTP_NOT_ACCEPTABLE status (no password
authentication configured), `malformedAccount` is the thrown
Error with message malformed account, `bigIntSyntax` is the SyntaxError
raised by the JavaScript BigInt constructor on a non-numeric string, and
`serverError msg` is ctx.throw of HTTP_SERVER_ERROR with the given message. -/
inductive JsError where
  | notAcceptable
  | malformedAccount
  | bigIntSyntax
  | serverError (msg : String)
deriving Repr, DecidableEq

/-- Whitespace as the JavaScript BigInt constructor strips it. -/
def isWS (c : Char) : Bool :=
  c = ' ' ∨ c = '\t' ∨ c = '\n' ∨ c = '\r'

/-- Strip leading and trailing whitespace from a character list. -/
def trimChars (l : List Char) : List Char :=
  ((l.dropWhile isWS).reverse.dropWhile isWS).reverse

/-- The value of a decimal digit character, none for a non-digit. -/
def digitVal (c : Char) : Option Nat :=
  if '0' ≤ c ∧ c ≤ '9' then some (c.toNat - '0'.toNat) else none

/-- Accumulate a decimal numeral left to right, failing on a non-digit. -/
def digitsToNatAux : List Char → Nat → Option Nat
  | [], acc => some acc
  | c :: cs, acc =>
    match digitVal c with
    | none => none
    | some d => digitsToNatAux cs (acc * 10 + d)

/-- A nonempty all-digit character list as a natural number. -/
def digitsToNat : List Char → Option Nat
  | [] => none
  | l => digitsToNatAux l 0

/-- Model of the JavaScript BigInt constructor on strings, for the decimal
numerals the stored srp material uses: surrounding whitespace is ignored,
the empty string denotes zero, an optional sign precedes the digits, and
any other shape raises a SyntaxError (modelled as `none`). -/
def jsBigInt (s : String) : Option Int :=
  match trimChars s.data with
  | [] => some 0
  | '-' :: rest => (digitsToNat rest).map (fun n => -(n : Int))
  | '+' :: rest => (digitsToNat rest).map (fun n => (n : Int))
  | t => (digitsToNat t).map (fun n => (n : Int))

/-- Split a character list at each bar character, as the JavaScript
string split does. -/
def splitBarAux : List Char → List Char → List (List Char)
  | [], acc => [acc.reverse]
  | c :: cs, acc =>
    if c = '|' then acc.reverse :: splitBarAux cs []
    else splitBarAux cs (c :: acc)

/-- The destructuring of account.srp.split on the bar character into
salt and verifier: a missing component (JavaScript undefined) is modelled
as the empty string, which is equally falsy under the source's guard. -/
def srpSplit (srp : String) : String × String :=
  match splitBarAux srp.data [] with
  | [] => ("", "")
  | [a] => (⟨a⟩, "")
  | a :: b :: _ => (⟨a⟩, ⟨b⟩)

/-- Result of srpStep1: the salt echoed back and the server's public
ephemeral key B, serialized as a string (bigint cannot be jsonized).
The ephemeral session object itself is consumed only inside srpCheck and
is folded into the abstract handshake outcome there. -/
structure Step1Result where
  salt : String
  pubKey : String
deriving Repr, DecidableEq

/-- srpStep1 from src/src/auth.ts: throws notAcceptable when account.srp
is absent or empty, splits it into salt and verifier, throws
malformedAccount when either component is missing, converts both with
BigInt (raising a SyntaxError on a non-numeric component), and otherwise
derives the server ephemeral session.  `srpB` abstracts the tssrp6a
library computation String of step1.B from the account identity and the
parsed salt and verifier. -/
def srpStep1 (srpB : String → Int → Int → String) (account : Account) :
    Except JsError Step1Result :=
  match account.srp with
  | none => .error .notAcceptable
  | some srp =>
    if srp = "" then .error .notAcceptable
    else if (srpSplit srp).1 = "" ∨ (srpSplit srp).2 = "" then .error .malformedAccount
    else
      match jsBigInt (srpSplit srp).1, jsBigInt (srpSplit srp).2 with
      | some s, some v =>
        .ok { salt := (srpSplit srp).1, pubKey := srpB account.username s v }
      | _, _ => .error .bigIntSyntax

/-- A stored srp string is well formed when both components are present
and numeric, i.e. exactly when srpStep1 succeeds on it. -/
def srpWellFormed (srp : String) : Bool :=
  !((srpSplit srp).1 == "") && !((srpSplit srp).2 == "")
    && (jsBigInt (srpSplit srp).1).isSome && (jsBigInt (srpSplit srp).2).isSome

/-- The credential fingerprint used as the verification cache key:
the sha256 hex digest (abstracted as `sha`) of the concatenation of
username, password and the stored srp material. -/
def fingerprint (sha : String → String) (username password srp : String) : String :=
  sha (username ++ password ++ srp)

deriving instance DecidableEq for Except

/-- The state touched by srpCheck: the module-level cache mapping a
fingerprint to the settled outcome of its creator (ok true for an accepted
proof, ok false for a rejected one, error for a creator that threw before
producing an outcome), the pending eviction timers from setTimeout as
fire-time and key pairs, a ghost counter of completed SRP handshake
computations, and the current time in milliseconds. -/
structure AuthState where
  cache : List (String × Except JsError Bool)
  timers : List (Nat × String)
  handshakes : Nat
  now : Nat
deriving Repr, DecidableEq

/-- Advance the clock to time `t`, firing every pending eviction timer
that is due: each due timer deletes its cache key, as the
setTimeout callback in srpCheck does. -/
def advanceTo (t : Nat) (st : AuthState) : AuthState :=
  let due := (st.timers.filter (fun tm => decide (tm.1 ≤ t))).map Prod.snd
  { cache := st.cache.filter (fun e => !(due.contains e.1)),
    timers := st.timers.filter (fun tm => !(decide (tm.1 ≤ t))),
    handshakes := st.handshakes,
    now := t }

/-- srpCheck from src/src/auth.ts.  Resolves the account and returns
undefined at once when it is missing, lacks srp material, or the password
is empty.  Otherwise computes the fingerprint and consults the cache
through getOrSet.  Modelled from the spec: getOrSet (from src/cross.ts,
not under src/) returns the entry for the key when present and otherwise
runs the creator, stores its result under the key synchronously before
any other call can observe the cache, and returns it.  The creator runs
srpStep1 (whose failure rejects the creator before anything else
happens), derives the client proof via srpClientPart (src/srp.ts, not
under src/), schedules the eviction timer 60000 milliseconds out, and
settles with the step2 outcome, mapping acceptance to 1 and rejection
to 0 so a rejection is never a thrown exception.  Modelled from the spec:
the cryptographic outcome of srpClientPart plus step2 is abstracted as
`srpMatch username password srp`, true exactly when the proof derived
from the password matches the stored verifier material.  Awaiting a
cached rejected creator rethrows its error. -/
def srpCheck (sha : String → String) (srpB : String → Int → Int → String)
    (srpMatch : String → String → String → Bool)
    (getAccount : String → Option Account) (username password : String)
    (st : AuthState) : Except JsError (Option Account) × AuthState :=
  match getAccount username with
  | none => (.ok none, st)
  | some account =>
    match account.srp with
    | none => (.ok none, st)
    | some srp =>
      if srp = "" ∨ password = "" then (.ok none, st)
      else
        let k := fingerprint sha username password srp
        match st.cache.lookup k with
        | some (.ok good) => (.ok (if good then some account else none), st)
        | some (.error e) => (.error e, st)
        | none =>
          match srpStep1 srpB account with
          | .error e => (.error e, { st with cache := (k, .error e) :: st.cache })
          | .ok _ =>
            let good := srpMatch username password srp
            (.ok (if good then some account else none),
              { cache := (k, .ok good) :: st.cache,
                timers := (st.now + 60000, k) :: st.timers,
                handshakes := st.handshakes + 1,
                now := st.now })

/-- N back-to-back srpCheck calls with the same credentials, as the
single-threaded event loop serializes simultaneous calls: each call runs
atomically up to its suspension point, and getOrSet has already stored
the first call's pending promise by then. -/
def srpCheckN (sha : String → String) (srpB : String → Int → Int → String)
    (srpMatch : String → String → String → Bool)
    (getAccount : String → Option Account) (username password : String) :
    Nat → AuthState → List (Except JsError (Option Account)) × AuthState
  | 0, st => ([], st)
  | n + 1, st =>
    let r := srpCheck sha srpB srpMatch getAccount username password st
    let rest := srpCheckN sha srpB srpMatch getAccount username password n r.2
    (r.1 :: rest.1, rest.2)

/-- The per-request session object carried by the transport: it can hold
an optional bound username, which delete removes. -/
structure Session where
  username : Option String
deriving Repr, DecidableEq

/-- The request context: the optional session transport object and the
request's working state, to which setLoggedIn attaches the resolved
account (read back by getCurrentUsername). -/
structure Ctx where
  session : Option Session
  stateAccount : Option Account
deriving Repr, DecidableEq

/-- The state touched by the session manager: the request context and the
module-level invalidSessions set, modelled as a duplicate-free list. -/
structure LoginState where
  ctx : Ctx
  invalidSessions : List String
deriving Repr, DecidableEq

/-- Membership check against the invalid-sessions set. -/
def isInvalidated (inv : List String) (u : String) : Bool :=
  inv.contains u

/-- setLoggedIn from src/src/auth.ts.  Throws serverError session when no
session transport is attached.  With `none` (the JavaScript literal
false) it deletes the session's username and returns.  With a username it
deletes that literal username from invalidSessions, stores the normalized
username as the session's bound identity, and attaches the account
resolved for the literal username to the request state. -/
def setLoggedIn (getAccount : String → Option Account)
    (normalizeUsername : String → String) (username : Option String)
    (st : LoginState) : Except JsError Unit × LoginState :=
  match st.ctx.session with
  | none => (.error (.serverError "session"), st)
  | some _ =>
    match username with
    | none =>
      (.ok (), { st with ctx := { st.ctx with session := some { username := none } } })
    | some u =>
      (.ok (),
        { ctx := { session := some { username := some (normalizeUsername u) },
                   stateAccount := getAccount u },
          invalidSessions := st.invalidSessions.filter (fun v => !(v == u)) })

/-- getCurrentUsername from src/src/auth.ts: reads
ctx.state.account optionally chained to username, defaulting to the empty
string; it is a total read and never throws. -/
def getCurrentUsername (ctx : Ctx) : String :=
  (ctx.stateAccount.map Account.username).getD ""

/-- Test fixture: an account whose stored srp material is the well formed
pair of salt 1 and verifier 2. -/
def acctAl : Account :=
  { username := "al", srp := some "1|2" }

/-- Test fixture: an account store holding only `acctAl`. -/
def getAcctAl : String → Option Account :=
  fun u => if u == "al" then some acctAl else none

/-- Test fixture: the identity function standing in for the sha256 hex
digest. -/
def shaId : String → String :=
  fun s => s

/-- Test fixture: a degenerate public-ephemeral computation. -/
def srpBZero : String → Int → Int → String :=
  fun _ _ _ => ""

/-- Test fixture: a handshake outcome accepting exactly the password pw. -/
def matchPw : String → String → String → Bool :=
  fun _ p _ => p == "pw"

/-- A well formed srp string is not empty (its salt component would be
empty otherwise). -/
theorem srpWellFormed_ne_empty (srp : String) (h : srpWellFormed srp = true) :
    srp ≠ "" := by
  intro he
  subst he
  exact absurd h (by decide)

/-- On an account whose srp material is well formed, srpStep1 succeeds. -/
theorem srpStep1_isOk (srpB : String → Int → Int → String) (account : Account)
    (srp : String) (hsrp : account.srp = some srp)
    (hwf : srpWellFormed srp = true) :
    ∃ r, srpStep1 srpB account = .ok r := by
  have hne := srpWellFormed_ne_empty srp hwf
  simp only [srpWellFormed, Bool.and_eq_true, bne_iff_ne, ne_eq,
    Option.isSome_iff_exists, beq_iff_eq, Bool.not_eq_true'] at hwf
  obtain ⟨⟨⟨h1, h2⟩, s, hs⟩, v, hv⟩ := hwf
  rw [beq_eq_false_iff_ne] at h1 h2
  simp only [srpStep1, hsrp, hne, if_false, h1, h2, or_self, hs, hv]
  exact ⟨_, rfl⟩

/-- srpCheck on a cache miss for a well formed account: the handshake
runs once, the outcome is cached under the fingerprint, and the eviction
timer is scheduled 60000 milliseconds after the current time. -/
theorem srpCheck_miss_eq (sha : String → String) (srpB : String → Int → Int → String)
    (srpMatch : String → String → String → Bool)
    (getAccount : String → Option Account) (username password : String)
    (st : AuthState) (account : Account) (srp : String)
    (hacc : getAccount username = some account) (hsrp : account.srp = some srp)
    (hwf : srpWellFormed srp = true) (hp : password ≠ "")
    (hmiss : st.cache.lookup (fingerprint sha username password srp) = none) :
    srpCheck sha srpB srpMatch getAccount username password st =
      (.ok (if srpMatch username password srp then some account else none),
       { cache := (fingerprint sha username password srp,
                    .ok (srpMatch username password srp)) :: st.cache,
         timers := (st.now + 60000, fingerprint sha username password srp) :: st.timers,
         handshakes := st.handshakes + 1,
         now := st.now }) := by
  obtain ⟨r, hr⟩ := srpStep1_isOk srpB account srp hsrp hwf
  have hne := srpWellFormed_ne_empty srp hwf
  simp only [srpCheck, hacc, hsrp, hne, hp, or_self, if_false, hmiss, hr]

/-- srpCheck on a cache hit holding a settled boolean outcome: the cached
outcome is returned and the state is untouched. -/
theorem srpCheck_hit_eq (sha : String → String) (srpB : String → Int → Int → String)
    (srpMatch : String → String → String → Bool)
    (getAccount : String → Option Account) (username password : String)
    (st : AuthState) (account : Account) (srp : String) (good : Bool)
    (hacc : getAccount username = some account) (hsrp : account.srp = some srp)
    (hne : srp ≠ "") (hp : password ≠ "")
    (hhit : st.cache.lookup (fingerprint sha username password srp)
              = some (.ok good)) :
    srpCheck sha srpB srpMatch getAccount username password st =
      (.ok (if good then some account else none), st) := by
  simp only [srpCheck, hacc, hsrp, hne, hp, or_self, if_false, hhit]

/-- Every srpCheck call finding a settled cached outcome returns that
same outcome without touching the state, however many calls run. -/
theorem srpCheckN_cached (sha : String → String) (srpB : String → Int → Int → String)
    (srpMatch : String → String → String → Bool)
    (getAccount : String → Option Account) (username password : String)
    (st : AuthState) (account : Account) (srp : String) (good : Bool)
    (hacc : getAccount username = some account) (hsrp : account.srp = some srp)
    (hne : srp ≠ "") (hp : password ≠ "")
    (hhit : st.cache.lookup (fingerprint sha username password srp)
              = some (.ok good)) (n : Nat) :
    srpCheckN sha srpB srpMatch getAccount username password n st =
      (List.replicate n (.ok (if good then some account else none)), st) := by
  induction n with
  | zero => rfl
  | succ m ih =>
    simp only [srpCheckN,
      srpCheck_hit_eq sha srpB srpMatch getAccount username password st account
        srp good hacc hsrp hne hp hhit, ih, List.replicate]

/-- C1: for every username and password pair matching the stored verifier
of an existing account (abstract handshake outcome true), srpCheck
returns that account; for every pair not matching (handshake outcome
false, or unknown user), it returns undefined; in both cases the result
is a returned value (Except.ok), never a thrown exception. -/
theorem srpCheck_decides (sha : String → String) (srpB : String → Int → Int → String)
    (srpMatch : String → String → String → Bool)
    (getAccount : String → Option Account) (username password : String)
    (st : AuthState) :
    (∀ account srp, getAccount username = some account → account.srp = some srp →
        srpWellFormed srp = true → password ≠ "" →
        st.cache.lookup (fingerprint sha username password srp) = none →
        (srpCheck sha srpB srpMatch getAccount username password st).1
          = .ok (if srpMatch username password srp then some account else none))
    ∧ (getAccount username = none →
        (srpCheck sha srpB srpMatch getAccount username password st).1 = .ok none) := by
  constructor
  · intro account srp hacc hsrp hwf hp hmiss
    rw [srpCheck_miss_eq sha srpB srpMatch getAccount username password st account
      srp hacc hsrp hwf hp hmiss]
  · intro h
    simp [srpCheck, h]

/-- Witness for C1 at a concrete store: the matching password returns the
account, a mutated password returns nothing, and an unknown user returns
nothing. -/
theorem srpCheck_decides_witness :
    (srpCheck shaId srpBZero matchPw getAcctAl "al" "pw"
        (AuthState.mk [] [] 0 0)).1 = .ok (some acctAl)
    ∧ (srpCheck shaId srpBZero matchPw getAcctAl "al" "pq"
        (AuthState.mk [] [] 0 0)).1 = .ok none
    ∧ (srpCheck shaId srpBZero matchPw getAcctAl "zz" "pw"
        (AuthState.mk [] [] 0 0)).1 = .ok none := by
  refine ⟨?_, ?_, ?_⟩
  · have h := (srpCheck_decides shaId srpBZero matchPw getAcctAl "al" "pw"
      (AuthState.mk [] [] 0 0)).1 acctAl "1|2" (by decide) rfl (by decide)
      (by decide) rfl
    simpa using h
  · have h := (srpCheck_decides shaId srpBZero matchPw getAcctAl "al" "pq"
      (AuthState.mk [] [] 0 0)).1 acctAl "1|2" (by decide) rfl (by decide)
      (by decide) rfl
    simpa using h
  · have h := (srpCheck_decides shaId srpBZero matchPw getAcctAl "zz" "pw"
      (AuthState.mk [] [] 0 0)).2 (by decide)
    simpa using h

/-- C5: when no account exists for the username, or the account lacks srp
configuration (absent or empty), or the password is the empty string,
srpCheck returns undefined immediately and the whole state, the cache
included, is unchanged. -/
theorem srpCheck_trivial_reject (sha : String → String)
    (srpB : String → Int → Int → String)
    (srpMatch : String → String → String → Bool)
    (getAccount : String → Option Account) (username password : String)
    (st : AuthState)
    (h : getAccount username = none
        ∨ (∃ account, getAccount username = some account
            ∧ (account.srp = none ∨ account.srp = some ""))
        ∨ password = "") :
    srpCheck sha srpB srpMatch getAccount username password st = (.ok none, st) := by
  rcases h with h | ⟨account, hacc, h2 | h2⟩ | h
  · simp [srpCheck, h]
  · simp [srpCheck, hacc, h2]
  · simp [srpCheck, hacc, h2]
  · cases hg : getAccount username with
    | none => simp [srpCheck, hg]
    | some account =>
      cases hs : account.srp with
      | none => simp [srpCheck, hg, hs]
      | some srp => simp [srpCheck, hg, hs, h]

/-- Witness for C5: unknown user, srp-less account, and empty password
all return undefined with the state unchanged. -/
theorem srpCheck_trivial_reject_witness :
    srpCheck shaId srpBZero matchPw getAcctAl "zz" "pw" (AuthState.mk [] [] 0 0)
      = (.ok none, AuthState.mk [] [] 0 0)
    ∧ srpCheck shaId srpBZero matchPw (fun _ => some (Account.mk "b" none))
        "b" "pw" (AuthState.mk [] [] 0 0)
      = (.ok none, AuthState.mk [] [] 0 0)
    ∧ srpCheck shaId srpBZero matchPw getAcctAl "al" "" (AuthState.mk [] [] 0 0)
      = (.ok none, AuthState.mk [] [] 0 0) := by
  refine ⟨?_, ?_, ?_⟩
  · exact srpCheck_trivial_reject shaId srpBZero matchPw getAcctAl "zz" "pw"
      (AuthState.mk [] [] 0 0) (Or.inl (by decide))
  · exact srpCheck_trivial_reject shaId srpBZero matchPw
      (fun _ => some (Account.mk "b" none)) "b" "pw" (AuthState.mk [] [] 0 0)
      (Or.inr (Or.inl ⟨Account.mk "b" none, rfl, Or.inl rfl⟩))
  · exact srpCheck_trivial_reject shaId srpBZero matchPw getAcctAl "al" ""
      (AuthState.mk [] [] 0 0) (Or.inr (Or.inr rfl))

/-- C8: on a context without a session transport object, setLoggedIn,
for login and logout alike, fails with the server-error class failure
(ctx.throw of HTTP_SERVER_ERROR) and leaves all state unchanged. -/
theorem setLoggedIn_requires_session (getAccount : String → Option Account)
    (normalizeUsername : String → String) (username : Option String)
    (st : LoginState) (h : st.ctx.session = none) :
    setLoggedIn getAccount normalizeUsername username st
      = (.error (.serverError "session"), st) := by
  simp [setLoggedIn, h]

/-- Witness for C8: a session-less context makes both login and logout
fail with the server error and keeps the state intact. -/
theorem setLoggedIn_requires_session_witness :
    setLoggedIn getAcctAl (fun s => s) (some "al")
        (LoginState.mk (Ctx.mk none none) ["x"])
      = (.error (.serverError "session"), LoginState.mk (Ctx.mk none none) ["x"])
    ∧ setLoggedIn getAcctAl (fun s => s) none
        (LoginState.mk (Ctx.mk none none) ["x"])
      = (.error (.serverError "session"), LoginState.mk (Ctx.mk none none) ["x"]) := by
  exact ⟨setLoggedIn_requires_session getAcctAl (fun s => s) (some "al")
      (LoginState.mk (Ctx.mk none none) ["x"]) rfl,
    setLoggedIn_requires_session getAcctAl (fun s => s) none
      (LoginState.mk (Ctx.mk none none) ["x"]) rfl⟩

/-- C2: N simultaneous srpCheck calls bearing the same username and
password (serialized by the single-threaded event loop, the first call
storing its pending entry before suspending) perform exactly one SRP
handshake computation, and every one of the N calls resolves to the same
outcome. -/
theorem srpCheck_dedup (sha : String → String) (srpB : String → Int → Int → String)
    (srpMatch : String → String → String → Bool)
    (getAccount : String → Option Account) (username password : String)
    (st : AuthState) (account : Account) (srp : String) (n : Nat)
    (hacc : getAccount username = some account) (hsrp : account.srp = some srp)
    (hwf : srpWellFormed srp = true) (hp : password ≠ "")
    (hmiss : st.cache.lookup (fingerprint sha username password srp) = none) :
    (srpCheckN sha srpB srpMatch getAccount username password (n + 1) st).2.handshakes
        = st.handshakes + 1
    ∧ ∀ r ∈ (srpCheckN sha srpB srpMatch getAccount username password (n + 1) st).1,
        r = .ok (if srpMatch username password srp then some account else none) := by
  have h1 := srpCheck_miss_eq sha srpB srpMatch getAccount username password st
    account srp hacc hsrp hwf hp hmiss
  have hne := srpWellFormed_ne_empty srp hwf
  have h2 := srpCheckN_cached sha srpB srpMatch getAccount username password
    { cache := (fingerprint sha username password srp,
                 .ok (srpMatch username password srp)) :: st.cache,
      timers := (st.now + 60000, fingerprint sha username password srp) :: st.timers,
      handshakes := st.handshakes + 1,
      now := st.now }
    account srp (srpMatch username password srp) hacc hsrp hne hp
    (by simp [List.lookup]) n
  simp only [srpCheckN, h1, h2]
  constructor
  · trivial
  · intro r hr
    simp only [List.mem_cons, List.eq_of_mem_replicate] at hr
    rcases hr with hr | hr
    · exact hr
    · exact List.eq_of_mem_replicate hr

/-- Witness for C2: three simultaneous calls with the matching password
perform one handshake and all return the account. -/
theorem srpCheck_dedup_witness :
    (srpCheckN shaId srpBZero matchPw getAcctAl "al" "pw" 3
        (AuthState.mk [] [] 0 0)).2.handshakes = 1
    ∧ ∀ r ∈ (srpCheckN shaId srpBZero matchPw getAcctAl "al" "pw" 3
        (AuthState.mk [] [] 0 0)).1, r = .ok (some acctAl) := by
  have h := srpCheck_dedup shaId srpBZero matchPw getAcctAl "al" "pw"
    (AuthState.mk [] [] 0 0) acctAl "1|2" 2 (by decide) rfl (by decide)
    (by decide) rfl
  simpa using h

/-- C3 counterexample: on an account whose salt component is non-numeric,
srpStep1 fails with the BigInt SyntaxError, which is not the
malformed-account error the claim names, so the claim as stated is false
at this input. -/
theorem srpStep1_nonNumeric_counterexample :
    srpStep1 srpBZero (Account.mk "u" (some "abc|123"))
      = .error .bigIntSyntax
    ∧ srpStep1 srpBZero (Account.mk "u" (some "abc|123"))
      ≠ .error .malformedAccount := by
  exact ⟨by decide, by decide⟩

/-- C3 amended: srpStep1 fails with notAcceptable when account.srp is
absent, with the malformed-account error when the salt or verifier
component is missing, and with the BigInt SyntaxError (a distinct,
numeric-parse failure) when a component is present but non-numeric; on
any account whose srp material is absent or not well formed it never
resolves successfully. -/
theorem srpStep1_error_taxonomy (srpB : String → Int → Int → String)
    (account : Account) :
    (account.srp = none → srpStep1 srpB account = .error .notAcceptable)
    ∧ (∀ srp, account.srp = some srp → srp ≠ "" →
        ((srpSplit srp).1 = "" ∨ (srpSplit srp).2 = "") →
        srpStep1 srpB account = .error .malformedAccount)
    ∧ (∀ srp, account.srp = some srp → srp ≠ "" →
        (srpSplit srp).1 ≠ "" → (srpSplit srp).2 ≠ "" →
        (jsBigInt (srpSplit srp).1 = none ∨ jsBigInt (srpSplit srp).2 = none) →
        srpStep1 srpB account = .error .bigIntSyntax)
    ∧ (∀ srp, account.srp = some srp → srpWellFormed srp = false →
        ∀ r, srpStep1 srpB account ≠ .ok r) := by
  refine ⟨?_, ?_, ?_, ?_⟩
  · intro h
    simp [srpStep1, h]
  · intro srp hsrp h0 h1
    simp [srpStep1, hsrp, h0, h1]
  · intro srp hsrp h0 h1 h2 h3
    simp only [srpStep1, hsrp, h0, if_false, h1, h2, or_self]
    rcases h3 with h3 | h3 <;>
      cases hs : jsBigInt (srpSplit srp).1 <;>
      cases hv : jsBigInt (srpSplit srp).2 <;>
      simp_all
  · intro srp hsrp hwf r
    by_cases h0 : srp = ""
    · simp [srpStep1, hsrp, h0]
    · by_cases h1 : (srpSplit srp).1 = "" ∨ (srpSplit srp).2 = ""
      · simp [srpStep1, hsrp, h0, h1]
      · push_neg at h1
        cases hs : jsBigInt (srpSplit srp).1 with
        | none => simp [srpStep1, hsrp, h0, h1.1, h1.2, hs]
        | some s =>
          cases hv : jsBigInt (srpSplit srp).2 with
          | none => simp [srpStep1, hsrp, h0, h1.1, h1.2, hs, hv]
          | some v =>
            exfalso
            have : srpWellFormed srp = true := by
              simp [srpWellFormed, h1.1, h1.2, hs, hv]
            rw [this] at hwf
            exact absurd hwf (by decide)

/-- Witness for C3 amended: absent srp gives notAcceptable, a missing
verifier gives the malformed-account error, a non-numeric verifier gives
the BigInt SyntaxError, and the malformed account never succeeds. -/
theorem srpStep1_error_taxonomy_witness :
    srpStep1 srpBZero (Account.mk "n" none) = .error .notAcceptable
    ∧ srpStep1 srpBZero (Account.mk "m" (some "onlysalt"))
        = .error .malformedAccount
    ∧ srpStep1 srpBZero (Account.mk "x" (some "9|zz")) = .error .bigIntSyntax
    ∧ ∀ r, srpStep1 srpBZero (Account.mk "m" (some "onlysalt")) ≠ .ok r := by
  refine ⟨?_, ?_, ?_, ?_⟩
  · exact (srpStep1_error_taxonomy srpBZero (Account.mk "n" none)).1 rfl
  · exact (srpStep1_error_taxonomy srpBZero
      (Account.mk "m" (some "onlysalt"))).2.1 "onlysalt" rfl (by decide) (by decide)
  · exact (srpStep1_error_taxonomy srpBZero
      (Account.mk "x" (some "9|zz"))).2.2.1 "9|zz" rfl (by decide) (by decide)
      (by decide) (by decide)
  · exact (srpStep1_error_taxonomy srpBZero
      (Account.mk "m" (some "onlysalt"))).2.2.2 "onlysalt" rfl (by decide)

/-- C4 counterexample: when the creator hits an internal protocol error
(here a malformed stored srp), it rejects before setTimeout runs, so no
eviction timer is scheduled and the cache entry created at time 0 is
still present when the clock reaches one billion milliseconds — the
entry is not deleted 60 seconds after its creation for this outcome. -/
theorem srpCheck_error_entry_persists :
    (srpCheck shaId srpBZero (fun _ _ _ => true)
        (fun _ => some (Account.mk "u" (some "onlysalt"))) "u" "pw"
        (AuthState.mk [] [] 0 0)).2
      = AuthState.mk [("upwonlysalt", .error .malformedAccount)] [] 0 0
    ∧ advanceTo 1000000000
        (AuthState.mk [("upwonlysalt", .error .malformedAccount)] [] 0 0)
      = AuthState.mk [("upwonlysalt", .error .malformedAccount)] [] 0 1000000000 := by
  exact ⟨by decide, by decide⟩

/-- C4 amended: for a handshake that reaches an outcome (success or
rejection), the entry created at time T schedules its eviction at
T + 60000 ms; an identical call at T + 10000 ms reuses the entry (same
result, state untouched, no new handshake), and by T + 61000 ms the entry
has been deleted, so an identical call then performs a fresh handshake.
A creator failing with an internal protocol error never schedules the
eviction and its entry persists. -/
theorem srpCheck_cache_window (sha : String → String)
    (srpB : String → Int → Int → String)
    (srpMatch : String → String → String → Bool)
    (getAccount : String → Option Account) (username password : String)
    (account : Account) (srp : String) (H T : Nat)
    (hacc : getAccount username = some account) (hsrp : account.srp = some srp)
    (hwf : srpWellFormed srp = true) (hp : password ≠ "") :
    ((srpCheck sha srpB srpMatch getAccount username password
        (AuthState.mk [] [] H T)).2.timers
      = [(T + 60000, fingerprint sha username password srp)])
    ∧ (srpCheck sha srpB srpMatch getAccount username password
        (advanceTo (T + 10000)
          (srpCheck sha srpB srpMatch getAccount username password
            (AuthState.mk [] [] H T)).2)
      = ((srpCheck sha srpB srpMatch getAccount username password
            (AuthState.mk [] [] H T)).1,
         advanceTo (T + 10000)
          (srpCheck sha srpB srpMatch getAccount username password
            (AuthState.mk [] [] H T)).2))
    ∧ ((advanceTo (T + 61000)
        (srpCheck sha srpB srpMatch getAccount username password
          (AuthState.mk [] [] H T)).2).cache = [])
    ∧ ((srpCheck sha srpB srpMatch getAccount username password
        (advanceTo (T + 61000)
          (srpCheck sha srpB srpMatch getAccount username password
            (AuthState.mk [] [] H T)).2)).2.handshakes = H + 2) := by
  have hne := srpWellFormed_ne_empty srp hwf
  have h1 := srpCheck_miss_eq sha srpB srpMatch getAccount username password
    (AuthState.mk [] [] H T) account srp hacc hsrp hwf hp rfl
  have hd10 : ¬ (T + 60000 ≤ T + 10000) := by omega
  have hd61 : T + 60000 ≤ T + 61000 := by omega
  have e10 : advanceTo (T + 10000)
      (AuthState.mk
        [(fingerprint sha username password srp,
          .ok (srpMatch username password srp))]
        [(T + 60000, fingerprint sha username password srp)] (H + 1) T)
      = AuthState.mk
        [(fingerprint sha username password srp,
          .ok (srpMatch username password srp))]
        [(T + 60000, fingerprint sha username password srp)] (H + 1)
        (T + 10000) := by
    simp [advanceTo, hd10]
  have e61 : advanceTo (T + 61000)
      (AuthState.mk
        [(fingerprint sha username password srp,
          .ok (srpMatch username password srp))]
        [(T + 60000, fingerprint sha username password srp)] (H + 1) T)
      = AuthState.mk [] [] (H + 1) (T + 61000) := by
    simp [advanceTo, hd61]
  refine ⟨by simp only [h1], ?_, ?_, ?_⟩
  · simp only [h1, e10]
    rw [srpCheck_hit_eq sha srpB srpMatch getAccount username password _ account
      srp (srpMatch username password srp) hacc hsrp hne hp
      (by simp [List.lookup])]
  · simp only [h1, e61]
  · simp only [h1, e61]
    rw [srpCheck_miss_eq sha srpB srpMatch getAccount username password
      (AuthState.mk [] [] (H + 1) (T + 61000)) account srp hacc hsrp hwf hp rfl]

/-- Witness for C4 amended, at the concrete fixtures with creation time
5 ms: the eviction is scheduled at 60005 ms, the call at 10005 ms reuses
the entry, the cache is empty at 61005 ms, and the call then performs the
second handshake. -/
theorem srpCheck_cache_window_witness :
    ((srpCheck shaId srpBZero matchPw getAcctAl "al" "pw"
        (AuthState.mk [] [] 0 5)).2.timers
      = [(5 + 60000, fingerprint shaId "al" "pw" "1|2")])
    ∧ (srpCheck shaId srpBZero matchPw getAcctAl "al" "pw"
        (advanceTo (5 + 10000)
          (srpCheck shaId srpBZero matchPw getAcctAl "al" "pw"
            (AuthState.mk [] [] 0 5)).2)
      = ((srpCheck shaId srpBZero matchPw getAcctAl "al" "pw"
            (AuthState.mk [] [] 0 5)).1,
         advanceTo (5 + 10000)
          (srpCheck shaId srpBZero matchPw getAcctAl "al" "pw"
            (AuthState.mk [] [] 0 5)).2))
    ∧ ((advanceTo (5 + 61000)
        (srpCheck shaId srpBZero matchPw getAcctAl "al" "pw"
          (AuthState.mk [] [] 0 5)).2).cache = [])
    ∧ ((srpCheck shaId srpBZero matchPw getAcctAl "al" "pw"
        (advanceTo (5 + 61000)
          (srpCheck shaId srpBZero matchPw getAcctAl "al" "pw"
            (AuthState.mk [] [] 0 5)).2)).2.handshakes = 0 + 2) := by
  exact srpCheck_cache_window shaId srpBZero matchPw getAcctAl "al" "pw" acctAl
    "1|2" 0 5 (by decide) rfl (by decide) (by decide)

/-- Deleting an element from a set-like list leaves no occurrence of it. -/
theorem contains_filter_ne_self (l : List String) (u : String) :
    (l.filter (fun v => !(v == u))).contains u = false := by
  simp

/-- Deleting an element from a set-like list leaves membership of every
other element unchanged. -/
theorem mem_filter_ne (l : List String) (u v : String) (h : v ≠ u) :
    v ∈ l.filter (fun w => !(w == u)) ↔ v ∈ l := by
  simp [List.mem_filter, h]

/-- C6: on a context with a session, login removes the username from the
invalid-sessions set (so isInvalidated is false immediately after),
stores the normalized username as the session's bound identity, and
attaches the account resolved for the username to the request state. -/
theorem setLoggedIn_login_effects (getAccount : String → Option Account)
    (normalizeUsername : String → String) (u : String) (st : LoginState)
    (s : Session) (h : st.ctx.session = some s) :
    (setLoggedIn getAccount normalizeUsername (some u) st).1 = .ok ()
    ∧ isInvalidated
        (setLoggedIn getAccount normalizeUsername (some u) st).2.invalidSessions
        u = false
    ∧ (setLoggedIn getAccount normalizeUsername (some u) st).2.ctx.session
        = some { username := some (normalizeUsername u) }
    ∧ (setLoggedIn getAccount normalizeUsername (some u) st).2.ctx.stateAccount
        = getAccount u := by
  refine ⟨?_, ?_, ?_, ?_⟩ <;>
    simp [setLoggedIn, h, isInvalidated]

/-- Witness for C6: logging in the invalidated user alice clears her from
the invalid-sessions set, binds the normalized identity, and attaches the
resolved account. -/
theorem setLoggedIn_login_effects_witness :
    (setLoggedIn getAcctAl (fun s => s) (some "al")
        (LoginState.mk (Ctx.mk (some (Session.mk none)) none) ["al", "zz"])).1
      = .ok ()
    ∧ isInvalidated
        (setLoggedIn getAcctAl (fun s => s) (some "al")
          (LoginState.mk (Ctx.mk (some (Session.mk none)) none)
            ["al", "zz"])).2.invalidSessions "al" = false
    ∧ (setLoggedIn getAcctAl (fun s => s) (some "al")
        (LoginState.mk (Ctx.mk (some (Session.mk none)) none)
          ["al", "zz"])).2.ctx.session = some { username := some "al" }
    ∧ (setLoggedIn getAcctAl (fun s => s) (some "al")
        (LoginState.mk (Ctx.mk (some (Session.mk none)) none)
          ["al", "zz"])).2.ctx.stateAccount = getAcctAl "al" := by
  exact setLoggedIn_login_effects getAcctAl (fun s => s) "al"
    (LoginState.mk (Ctx.mk (some (Session.mk none)) none) ["al", "zz"])
    (Session.mk none) rfl

/-- C7 counterexample: on a context whose request state carries the
account attached by an earlier login, logout completes but
getCurrentUsername still returns alice, not the empty string, because
logout deletes only the session's username and getCurrentUsername reads
the request-state account. -/
theorem logout_stale_account_counterexample :
    (setLoggedIn (fun _ => none) (fun s => s) none
        (LoginState.mk (Ctx.mk (some (Session.mk (some "alice")))
          (some (Account.mk "alice" none))) [])).1 = .ok ()
    ∧ getCurrentUsername
        (setLoggedIn (fun _ => none) (fun s => s) none
          (LoginState.mk (Ctx.mk (some (Session.mk (some "alice")))
            (some (Account.mk "alice" none))) [])).2.ctx = "alice"
    ∧ ("alice" : String) ≠ "" := by
  exact ⟨by decide, by decide, by decide⟩

/-- C7 amended: logout clears the bound identity from the session and
touches nothing else, and getCurrentUsername is a total read of the
request-state account's username, returning the empty string when no
account is attached; in particular, after logout getCurrentUsername is
empty provided no account object remains attached to the request's
working state (which logout does not clear). -/
theorem logout_clears_session (getAccount : String → Option Account)
    (normalizeUsername : String → String) (st : LoginState) (s : Session)
    (h : st.ctx.session = some s) :
    (setLoggedIn getAccount normalizeUsername none st).1 = .ok ()
    ∧ (setLoggedIn getAccount normalizeUsername none st).2.ctx.session
        = some { username := none }
    ∧ (setLoggedIn getAccount normalizeUsername none st).2.ctx.stateAccount
        = st.ctx.stateAccount
    ∧ (setLoggedIn getAccount normalizeUsername none st).2.invalidSessions
        = st.invalidSessions
    ∧ (st.ctx.stateAccount = none →
        getCurrentUsername
          (setLoggedIn getAccount normalizeUsername none st).2.ctx = "")
    ∧ (∀ ctx : Ctx, ctx.stateAccount = none → getCurrentUsername ctx = "") := by
  refine ⟨?_, ?_, ?_, ?_, ?_, ?_⟩
  · simp [setLoggedIn, h]
  · simp [setLoggedIn, h]
  · simp [setLoggedIn, h]
  · simp [setLoggedIn, h]
  · intro ha
    simp [setLoggedIn, h, getCurrentUsername, ha]
  · intro ctx ha
    simp [getCurrentUsername, ha]

/-- Witness for C7 amended: logout on an anonymous-state context clears
the session identity and getCurrentUsername returns empty. -/
theorem logout_clears_session_witness :
    (setLoggedIn getAcctAl (fun s => s) none
        (LoginState.mk (Ctx.mk (some (Session.mk (some "al"))) none) [])).1
      = .ok ()
    ∧ (setLoggedIn getAcctAl (fun s => s) none
        (LoginState.mk (Ctx.mk (some (Session.mk (some "al"))) none)
          [])).2.ctx.session = some { username := none }
    ∧ getCurrentUsername
        (setLoggedIn getAcctAl (fun s => s) none
          (LoginState.mk (Ctx.mk (some (Session.mk (some "al"))) none)
            [])).2.ctx = "" := by
  have h := logout_clears_session getAcctAl (fun s => s)
    (LoginState.mk (Ctx.mk (some (Session.mk (some "al"))) none) [])
    (Session.mk (some "al")) rfl
  exact ⟨h.1, h.2.1, h.2.2.2.2.1 rfl⟩

/-- C9 counterexample: logging out an already-anonymous session whose
request state still carries an account is a no-op and does not error,
yet getCurrentUsername returns bob, not the empty string. -/
theorem logout_anonymous_counterexample :
    (setLoggedIn (fun _ => none) (fun s => s) none
        (LoginState.mk (Ctx.mk (some (Session.mk none))
          (some (Account.mk "bob" none))) [])).1 = .ok ()
    ∧ (setLoggedIn (fun _ => none) (fun s => s) none
        (LoginState.mk (Ctx.mk (some (Session.mk none))
          (some (Account.mk "bob" none))) [])).2
      = LoginState.mk (Ctx.mk (some (Session.mk none))
          (some (Account.mk "bob" none))) []
    ∧ getCurrentUsername
        (setLoggedIn (fun _ => none) (fun s => s) none
          (LoginState.mk (Ctx.mk (some (Session.mk none))
            (some (Account.mk "bob" none))) [])).2.ctx = "bob"
    ∧ ("bob" : String) ≠ "" := by
  exact ⟨by decide, by decide, by decide, by decide⟩

/-- C9 amended: on a context with a session, logout does not error,
logging out twice in a row is the same as logging out once, logging out
an already-anonymous session is a no-op on the whole state, and
getCurrentUsername returns the empty string provided no account object is
attached to the request's working state. -/
theorem logout_idempotent (getAccount : String → Option Account)
    (normalizeUsername : String → String) (st : LoginState) (s : Session)
    (h : st.ctx.session = some s) :
    (setLoggedIn getAccount normalizeUsername none st).1 = .ok ()
    ∧ setLoggedIn getAccount normalizeUsername none
        (setLoggedIn getAccount normalizeUsername none st).2
      = (.ok (), (setLoggedIn getAccount normalizeUsername none st).2)
    ∧ (st.ctx.session = some { username := none } →
        (setLoggedIn getAccount normalizeUsername none st).2 = st)
    ∧ (st.ctx.stateAccount = none →
        getCurrentUsername
          (setLoggedIn getAccount normalizeUsername none st).2.ctx = "") := by
  refine ⟨?_, ?_, ?_, ?_⟩
  · simp [setLoggedIn, h]
  · simp [setLoggedIn, h]
  · intro h2
    simp only [setLoggedIn, h]
    rw [← h2]
  · intro ha
    simp [setLoggedIn, h, getCurrentUsername, ha]

/-- Witness for C9 amended: logging out a fresh anonymous context twice
errors nowhere, changes nothing, and leaves getCurrentUsername empty. -/
theorem logout_idempotent_witness :
    (setLoggedIn getAcctAl (fun s => s) none
        (LoginState.mk (Ctx.mk (some (Session.mk none)) none) [])).1 = .ok ()
    ∧ setLoggedIn getAcctAl (fun s => s) none
        (setLoggedIn getAcctAl (fun s => s) none
          (LoginState.mk (Ctx.mk (some (Session.mk none)) none) [])).2
      = (.ok (), (setLoggedIn getAcctAl (fun s => s) none
          (LoginState.mk (Ctx.mk (some (Session.mk none)) none) [])).2)
    ∧ (setLoggedIn getAcctAl (fun s => s) none
        (LoginState.mk (Ctx.mk (some (Session.mk none)) none) [])).2
      = LoginState.mk (Ctx.mk (some (Session.mk none)) none) []
    ∧ getCurrentUsername
        (setLoggedIn getAcctAl (fun s => s) none
          (LoginState.mk (Ctx.mk (some (Session.mk none)) none) [])).2.ctx
      = "" := by
  have h := logout_idempotent getAcctAl (fun s => s)
    (LoginState.mk (Ctx.mk (some (Session.mk none)) none) [])
    (Session.mk none) rfl
  exact ⟨h.1, h.2.1, h.2.2.1 rfl, h.2.2.2 rfl⟩

/-- C10: login deletes exactly the literal username from the
invalid-sessions set while binding the normalized username to the
session: an entry recorded under a distinct normalized form remains, and
membership of every name other than the literal username is unchanged. -/
theorem setLoggedIn_invalidation_frame (getAccount : String → Option Account)
    (normalizeUsername : String → String) (u v : String) (st : LoginState)
    (s : Session) (h : st.ctx.session = some s) :
    (setLoggedIn getAccount normalizeUsername (some u) st).2.invalidSessions
        = st.invalidSessions.filter (fun w => !(w == u))
    ∧ (v ≠ u →
        (v ∈ (setLoggedIn getAccount normalizeUsername (some u) st).2.invalidSessions
          ↔ v ∈ st.invalidSessions))
    ∧ (normalizeUsername u ≠ u → normalizeUsername u ∈ st.invalidSessions →
        normalizeUsername u
          ∈ (setLoggedIn getAccount normalizeUsername (some u) st).2.invalidSessions)
    ∧ (setLoggedIn getAccount normalizeUsername (some u) st).2.ctx.session
        = some { username := some (normalizeUsername u) } := by
  refine ⟨?_, ?_, ?_, ?_⟩
  · simp [setLoggedIn, h]
  · intro hv
    simp only [setLoggedIn, h]
    exact mem_filter_ne st.invalidSessions u v hv
  · intro hn hmem
    simp only [setLoggedIn, h]
    exact (mem_filter_ne st.invalidSessions u (normalizeUsername u) hn).mpr hmem
  · simp [setLoggedIn, h]

/-- Witness for C10: logging in as Alice under a lower-casing
normalization removes only the literal Alice from the invalid-sessions
set, leaving the entry recorded under alice (and the unrelated zz) in
place, while the session identity becomes alice. -/
theorem setLoggedIn_invalidation_frame_witness :
    (setLoggedIn getAcctAl (fun _ => "alice") (some "Alice")
        (LoginState.mk (Ctx.mk (some (Session.mk none)) none)
          ["alice", "zz", "Alice"])).2.invalidSessions
      = (["alice", "zz", "Alice"] : List String).filter (fun w => !(w == "Alice"))
    ∧ (("zz" : String)
        ∈ (setLoggedIn getAcctAl (fun _ => "alice") (some "Alice")
            (LoginState.mk (Ctx.mk (some (Session.mk none)) none)
              ["alice", "zz", "Alice"])).2.invalidSessions
        ↔ ("zz" : String) ∈ (["alice", "zz", "Alice"] : List String))
    ∧ ("alice" : String)
        ∈ (setLoggedIn getAcctAl (fun _ => "alice") (some "Alice")
            (LoginState.mk (Ctx.mk (some (Session.mk none)) none)
              ["alice", "zz", "Alice"])).2.invalidSessions
    ∧ (setLoggedIn getAcctAl (fun _ => "alice") (some "Alice")
        (LoginState.mk (Ctx.mk (some (Session.mk none)) none)
          ["alice", "zz", "Alice"])).2.ctx.session
      = some { username := some "alice" } := by
  have h := setLoggedIn_invalidation_frame getAcctAl (fun _ => "alice")
    "Alice" "zz"
    (LoginState.mk (Ctx.mk (some (Session.mk none)) none)
      ["alice", "zz", "Alice"])
    (Session.mk none) rfl
  exact ⟨h.1, h.2.1 (by decide), h.2.2.1 (by decide) (by decide), h.2.2.2⟩
